import Mathlib

/-!
Verification of the DiscordLiveChat repository (src/live_chat.py) — a shallow
embedding of the LiveChatBot / DiscordBotManager code and, where the source is
still a TODO skeleton, of the ChatBridgeSession state machine described by the
design document.

Modelling conventions:
* Python dictionaries loaded from JSON become structures with Option fields
  (none = key absent) or association lists (List (String × Bool)) for the
  sparse intent override mapping.
* A raised Python exception becomes Except.error carrying a PyError with the
  message of the raise statement; falling off the end of a Python function
  becomes returning none.
* LOGGER.info calls inside get_intent become explicitly returned log entries
  (the flag name paired with the resolved value), so that diagnostics are
  observable in theorems.
* File-system and JSON-parsing effects are abstracted into an explicit
  FileState input (missing / unreadable / malformed / parsed data).
-/

/-- A Python exception raised by the program: ValueError with its message,
KeyError from an absent dictionary key, IOError from the path checks, and the
error json.load raises on malformed input. -/
inductive PyError
  | valueError (msg : String)
  | keyError (key : String)
  | ioError (msg : String)
  | jsonDecodeError
deriving DecidableEq, Repr

/-- `true` exactly on `Except.error`; an errored construction produced no
object. -/
def is_error {α : Type} (e : Except PyError α) : Bool :=
  match e with
  | .error _ => true
  | .ok _ => false

/-- The sparse intent override mapping of the JSON configuration: a dictionary
from flag name to boolean. -/
abbrev Overrides : Type := List (String × Bool)

/-- LiveChatBot.DEFAULT_INTENTS (src/live_chat.py lines 96-130): the default
fallback intents, in source order. -/
def DEFAULT_INTENTS : List (String × Bool) :=
  [ ("auto_moderation", false),
    ("auto_moderation_configuration", false),
    ("auto_moderation_execution", false),
    ("bans", false),
    ("dm_messages", false),
    ("dm_reactions", false),
    ("dm_typing", false),
    ("emojis_and_stickers", false),
    ("guild_messages", true),
    ("guild_reactions", false),
    ("guild_scheduled_events", false),
    ("guild_typing", false),
    ("guilds", true),
    ("integrations", false),
    ("invites", false),
    ("members", true),
    ("message_content", true),
    ("presences", false),
    ("voice_states", false),
    ("webhooks", true) ]

/-- The recognized flag names: the keys of DEFAULT_INTENTS. -/
def recognized_flags : List String := DEFAULT_INTENTS.map Prod.fst

/-- The documented default of a recognized flag (lookup in DEFAULT_INTENTS). -/
def default_intent (name : String) : Bool :=
  (DEFAULT_INTENTS.lookup name).getD false

/-- The value get_intent resolves for a recognized flag: the override when the
name is present in the mapping, the documented default otherwise. -/
def intent_value (cfg : Overrides) (name : String) : Bool :=
  (List.lookup name cfg).getD (default_intent name)

/-- LiveChatBot.get_intent (src/live_chat.py lines 179-186). Raises ValueError
on a null configuration or flag name; evaluates DEFAULT_INTENTS[intent_name]
(raising KeyError when the name is not recognized, since Python evaluates the
default argument of dict.get eagerly); otherwise returns the override when
present, else the default. The returned pair is the LOGGER.info diagnostic:
the flag name together with the resolved value. -/
def get_intent (configuration : Option Overrides) (intent_name : Option String) :
    Except PyError (String × Bool) :=
  match configuration with
  | none => .error (.valueError "configuration is null.")
  | some cfg =>
    match intent_name with
    | none => .error (.valueError "intent_name is null.")
    | some name =>
      match DEFAULT_INTENTS.lookup name with
      | none => .error (.keyError name)
      | some d => .ok (name, (List.lookup name cfg).getD d)

/-- The discord.Intents object as populated by build_intents: one boolean per
recognized flag, in source order. -/
structure Intents where
  auto_moderation : Bool
  auto_moderation_configuration : Bool
  auto_moderation_execution : Bool
  bans : Bool
  dm_messages : Bool
  dm_reactions : Bool
  dm_typing : Bool
  emojis_and_stickers : Bool
  guild_messages : Bool
  guild_reactions : Bool
  guild_scheduled_events : Bool
  guild_typing : Bool
  guilds : Bool
  integrations : Bool
  invites : Bool
  members : Bool
  message_content : Bool
  presences : Bool
  voice_states : Bool
  webhooks : Bool
deriving DecidableEq, Repr

/-- The body of LiveChatBot.build_intents (src/live_chat.py lines 154-174):
the twenty get_intent calls in source order, the discord.Intents object they
populate, and the emitted log entries. -/
def build_intents_body (cfg : Overrides) : Except PyError (List (String × Bool) × Intents) := do
  let auto_moderation ← get_intent (some cfg) (some "auto_moderation")
  let auto_moderation_configuration ← get_intent (some cfg) (some "auto_moderation_configuration")
  let auto_moderation_execution ← get_intent (some cfg) (some "auto_moderation_execution")
  let bans ← get_intent (some cfg) (some "bans")
  let dm_messages ← get_intent (some cfg) (some "dm_messages")
  let dm_reactions ← get_intent (some cfg) (some "dm_reactions")
  let dm_typing ← get_intent (some cfg) (some "dm_typing")
  let emojis_and_stickers ← get_intent (some cfg) (some "emojis_and_stickers")
  let guild_messages ← get_intent (some cfg) (some "guild_messages")
  let guild_reactions ← get_intent (some cfg) (some "guild_reactions")
  let guild_scheduled_events ← get_intent (some cfg) (some "guild_scheduled_events")
  let guild_typing ← get_intent (some cfg) (some "guild_typing")
  let guilds ← get_intent (some cfg) (some "guilds")
  let integrations ← get_intent (some cfg) (some "integrations")
  let invites ← get_intent (some cfg) (some "invites")
  let members ← get_intent (some cfg) (some "members")
  let message_content ← get_intent (some cfg) (some "message_content")
  let presences ← get_intent (some cfg) (some "presences")
  let voice_states ← get_intent (some cfg) (some "voice_states")
  let webhooks ← get_intent (some cfg) (some "webhooks")
  let log := [auto_moderation, auto_moderation_configuration, auto_moderation_execution,
    bans, dm_messages, dm_reactions, dm_typing, emojis_and_stickers, guild_messages,
    guild_reactions, guild_scheduled_events, guild_typing, guilds, integrations, invites,
    members, message_content, presences, voice_states, webhooks]
  let intents : Intents :=
    { auto_moderation := auto_moderation.2,
      auto_moderation_configuration := auto_moderation_configuration.2,
      auto_moderation_execution := auto_moderation_execution.2,
      bans := bans.2,
      dm_messages := dm_messages.2,
      dm_reactions := dm_reactions.2,
      dm_typing := dm_typing.2,
      emojis_and_stickers := emojis_and_stickers.2,
      guild_messages := guild_messages.2,
      guild_reactions := guild_reactions.2,
      guild_scheduled_events := guild_scheduled_events.2,
      guild_typing := guild_typing.2,
      guilds := guilds.2,
      integrations := integrations.2,
      invites := invites.2,
      members := members.2,
      message_content := message_content.2,
      presences := presences.2,
      voice_states := voice_states.2,
      webhooks := webhooks.2 }
  return (log, intents)

/-- LiveChatBot.build_intents (src/live_chat.py lines 151-174). Raises
ValueError on a null configuration; otherwise runs the body — and, since the
Python function has no return statement, discards the assembled Intents object
and returns None. The result pairs the emitted log with that returned value. -/
def build_intents (configuration : Option Overrides) :
    Except PyError (List (String × Bool) × Option Intents) :=
  match configuration with
  | none => .error (.valueError "configuration is null.")
  | some cfg => do
    let (log, _intents) ← build_intents_body cfg
    return (log, none)

/-- The Intents record each recognized flag of which holds its resolved
value. -/
def intents_record_of (cfg : Overrides) : Intents :=
  { auto_moderation := intent_value cfg "auto_moderation",
    auto_moderation_configuration := intent_value cfg "auto_moderation_configuration",
    auto_moderation_execution := intent_value cfg "auto_moderation_execution",
    bans := intent_value cfg "bans",
    dm_messages := intent_value cfg "dm_messages",
    dm_reactions := intent_value cfg "dm_reactions",
    dm_typing := intent_value cfg "dm_typing",
    emojis_and_stickers := intent_value cfg "emojis_and_stickers",
    guild_messages := intent_value cfg "guild_messages",
    guild_reactions := intent_value cfg "guild_reactions",
    guild_scheduled_events := intent_value cfg "guild_scheduled_events",
    guild_typing := intent_value cfg "guild_typing",
    guilds := intent_value cfg "guilds",
    integrations := intent_value cfg "integrations",
    invites := intent_value cfg "invites",
    members := intent_value cfg "members",
    message_content := intent_value cfg "message_content",
    presences := intent_value cfg "presences",
    voice_states := intent_value cfg "voice_states",
    webhooks := intent_value cfg "webhooks" }

/-- The per-flag diagnostics build_intents emits on a non-null configuration:
one entry per recognized flag, pairing the flag name with its resolved
value. -/
def intent_log (cfg : Overrides) : List (String × Bool) :=
  recognized_flags.map (fun n => (n, intent_value cfg n))

theorem build_intents_body_eq (cfg : Overrides) :
    build_intents_body cfg = .ok (intent_log cfg, intents_record_of cfg) := rfl

theorem build_intents_eq (cfg : Overrides) :
    build_intents (some cfg) = .ok (intent_log cfg, none) := rfl

/-- One JSON bot entry of the configuration file: the fields LiveChatBot reads.
A none field is a key absent from the JSON object. -/
structure BotConfig where
  auth : Option String := none
  name : Option String := none
  display_name : Option String := none
  intents : Option Overrides := none
deriving DecidableEq

/-- A constructed LiveChatBot instance: the state retained after __init__.
self.name and self.display_name are the two attributes the constructor sets;
the intents field records the value passed to super().__init__ of the
discord.Client base class. -/
structure LiveChatBot where
  name : String
  display_name : String
  intents : Option Intents
deriving DecidableEq, Repr

/-- LiveChatBot.__init__ (src/live_chat.py lines 134-147). Raises ValueError
when the configuration is null or the auth token is absent or empty; sets
self.name and self.display_name with their silent defaults; builds the intents
from the overrides (falling back to the whole DEFAULT_INTENTS table when the
intents key is absent) and passes the build_intents return value to
super().__init__. -/
def LiveChatBot.init (configuration : Option BotConfig) : Except PyError LiveChatBot :=
  match configuration with
  | none => .error (.valueError "configuration is null.")
  | some cfg =>
    let auth := cfg.auth.getD ""
    if auth == "" then
      .error (.valueError "No API authentication token was provided in the bot configuration.")
    else do
      let name := cfg.name.getD "live_chat"
      let display_name := cfg.display_name.getD "Live Chat"
      let (_log, intents) ← build_intents (some (cfg.intents.getD DEFAULT_INTENTS))
      return { name := name, display_name := display_name, intents := intents }

theorem LiveChatBot.init_ok (cfg : BotConfig) (a : String) (ha : cfg.auth = some a)
    (hne : a ≠ "") :
    LiveChatBot.init (some cfg) =
      .ok { name := cfg.name.getD "live_chat",
            display_name := cfg.display_name.getD "Live Chat",
            intents := none } := by
  have hbeq : (a == "") = false := by simpa using hne
  simp [LiveChatBot.init, ha, hbeq, build_intents_eq]

theorem LiveChatBot.init_isOk_iff (c : Option BotConfig) :
    is_error (LiveChatBot.init c) = false ↔
      ∃ cfg a, c = some cfg ∧ cfg.auth = some a ∧ a ≠ "" := by
  constructor
  · intro h
    match c with
    | none => simp [LiveChatBot.init, is_error] at h
    | some cfg =>
      match hau : cfg.auth with
      | none => simp [LiveChatBot.init, is_error, hau] at h
      | some a =>
        by_cases hae : a = ""
        · simp [LiveChatBot.init, is_error, hau, hae] at h
        · exact ⟨cfg, a, rfl, hau, hae⟩
  · rintro ⟨cfg, a, rfl, hau, hne⟩
    rw [LiveChatBot.init_ok cfg a hau hne]
    rfl

/-- The parsed content of configuration.json: the fields DiscordBotManager
reads. A bot entry may itself be null in the JSON array, hence the inner
Option. -/
structure ManagerConfig where
  address : Option String := none
  port : Option Int := none
  bots : Option (List (Option BotConfig)) := none
deriving DecidableEq

/-- A constructed DiscordBotManager instance: listen address, listen port and
the list of LiveChatBot instances it manages. -/
structure DiscordBotManager where
  listen_address : String
  listen_port : Int
  bots : List LiveChatBot
deriving DecidableEq, Repr

/-- The bot-construction loop of DiscordBotManager.__init__ (src/live_chat.py
lines 226-228): each entry of the bots array is passed to LiveChatBot in
order, and the first raised exception aborts the whole load. -/
def load_bots : List (Option BotConfig) → Except PyError (List LiveChatBot)
  | [] => .ok []
  | b :: rest => do
    let bot ← LiveChatBot.init b
    let bots ← load_bots rest
    return bot :: bots

/-- DiscordBotManager.__init__ from parsed JSON data (src/live_chat.py lines
219-230): address defaults to 0.0.0.0, port to 8080, the bots array to empty;
then every bot entry is constructed in order. -/
def DiscordBotManager.init (json_data : ManagerConfig) : Except PyError DiscordBotManager := do
  let listen_address := json_data.address.getD "0.0.0.0"
  let listen_port := json_data.port.getD 8080
  let bots_data := json_data.bots.getD []
  let bots ← load_bots bots_data
  return { listen_address := listen_address, listen_port := listen_port, bots := bots }

/-- The names of the constructed bots of a successful load, none on a failed
load. -/
def manager_bot_names (e : Except PyError DiscordBotManager) : Option (List String) :=
  match e with
  | .error _ => none
  | .ok m => some (m.bots.map LiveChatBot.name)

/-- The list of configuration failures a load reports: the raised exception on
a failed load (the Python code can only ever raise one), nothing on a
successful load. -/
def reported_errors {α : Type} (e : Except PyError α) : List PyError :=
  match e with
  | .error err => [err]
  | .ok _ => []

theorem load_bots_first_error (pre : List (Option BotConfig)) (b : Option BotConfig)
    (rest : List (Option BotConfig)) (err : PyError)
    (hok : ∀ x ∈ pre, is_error (LiveChatBot.init x) = false)
    (hb : LiveChatBot.init b = .error err) :
    load_bots (pre ++ b :: rest) = .error err := by
  induction pre with
  | nil => simp [load_bots, hb]; rfl
  | cons p pre ih =>
    have hp : is_error (LiveChatBot.init p) = false := hok p (by simp)
    match hinit : LiveChatBot.init p with
    | .error e => rw [hinit] at hp; simp [is_error] at hp
    | .ok bot =>
      have := ih (fun x hx => hok x (by simp [hx]))
      simp [load_bots, hinit, this]; rfl

/-- The state of the file the program entry points DiscordBotManager at:
absent, present but unreadable, readable but not valid JSON, or readable JSON
parsing to the given data. -/
inductive FileState
  | missing
  | unreadable
  | malformed
  | valid (data : ManagerConfig)
deriving DecidableEq

/-- DiscordBotManager.__init__ (src/live_chat.py lines 207-230) including the
path validation and file reading that precede the JSON field reads: a null
path raises ValueError, a missing or unreadable file raises IOError, malformed
JSON raises the json.load decoding error; otherwise the parsed data is
processed by DiscordBotManager.init. The file system is passed in as a map
from path to FileState. -/
def DiscordBotManager.init_from_path (fs : String → FileState) (configuration_path : Option String) :
    Except PyError DiscordBotManager :=
  match configuration_path with
  | none => .error (.valueError "configuration_path is null.")
  | some p =>
    match fs p with
    | .missing => .error (.ioError "configuration_path is not a file.")
    | .unreadable => .error (.ioError "configuration_path is not readable.")
    | .malformed => .error .jsonDecodeError
    | .valid data => DiscordBotManager.init data

/-- os.path.join(d, "") as used at src/live_chat.py line 240: appends a
trailing separator to a non-empty path lacking one. -/
def join_empty (d : String) : String :=
  if d = "" then "" else if d.endsWith "/" then d else d ++ "/"

/-- os.path.join(d, "configuration.json") where d is "" or ends in a
separator, as at src/live_chat.py line 242. -/
def join_config (d : String) : String :=
  if d = "" then "configuration.json" else d ++ "configuration.json"

/-- The configuration directory the entry code selects (src/live_chat.py lines
233-239): the first program argument when one is given, else the real path of
the current working directory (passed in as cwd). -/
def config_directory_path (cwd : String) (arguments : List String) : String :=
  match arguments with
  | [] => cwd
  | a :: _ => a

/-- DISCORD_CONFIGURATION_PATH (src/live_chat.py lines 240-242): the selected
directory with a trailing separator, joined with configuration.json. -/
def configuration_file_path (cwd : String) (arguments : List String) : String :=
  join_config (join_empty (config_directory_path cwd arguments))

/-- The module entry (src/live_chat.py lines 232-243): build the configuration
path from the arguments and construct DISCORD_BOT_MANAGER from it. -/
def program_entry (fs : String → FileState) (cwd : String) (arguments : List String) :
    Except PyError DiscordBotManager :=
  DiscordBotManager.init_from_path fs (some (configuration_file_path cwd arguments))

/-- Modelled from the spec: the ChatBridgeSession connection states of §4.3.
No ChatBridgeSession exists in src yet (the source marks it TODO), so the
state machine is taken from the design document. -/
inductive SessionState
  | disconnected
  | connecting
  | connected
  | degraded
  | shuttingDown
  | closed
deriving DecidableEq, Repr

/-- Modelled from the spec: the connect/disconnect events driving the §4.3
state machine. -/
inductive SessionEvent
  | startOrBackoff
  | handshakeSucceeded
  | transientError
  | recovered
  | connectionLost
  | stopRequested
  | drainComplete
deriving DecidableEq, Repr

/-- Modelled from the spec: the transition relation of §4.3. Disconnected
moves to Connecting on session start or after backoff; Connecting to Connected
on a successful handshake; Connected to Degraded on a transient transport
error; Degraded back to Connected on recovery; Connected or Degraded to
Disconnected on connection loss; any state to ShuttingDown on explicit stop
and ShuttingDown to Closed, which is terminal. Events not applicable in a
state are rejected. -/
def step : SessionState → SessionEvent → Option SessionState
  | .disconnected, .startOrBackoff => some .connecting
  | .connecting, .handshakeSucceeded => some .connected
  | .connected, .transientError => some .degraded
  | .degraded, .recovered => some .connected
  | .connected, .connectionLost => some .disconnected
  | .degraded, .connectionLost => some .disconnected
  | .shuttingDown, .drainComplete => some .closed
  | .closed, _ => none
  | _, .stopRequested => some .shuttingDown
  | _, _ => none

/-- Runs a sequence of events from a state, recording every state visited
(the start state included); none when some event is not applicable. -/
def run : SessionState → List SessionEvent → Option (List SessionState)
  | s, [] => some [s]
  | s, e :: evs => (step s e).bind (fun t => (run t evs).map (fun l => s :: l))

theorem step_into_connecting (s : SessionState) (e : SessionEvent)
    (h : step s e = some .connecting) : s = .disconnected := by
  revert h
  cases s <;> cases e <;> decide

theorem step_into_connected (s : SessionState) (e : SessionEvent)
    (h : step s e = some .connected) : s = .connecting ∨ s = .degraded := by
  revert h
  cases s <;> cases e <;> decide

theorem step_into_degraded (s : SessionState) (e : SessionEvent)
    (h : step s e = some .degraded) : s = .connected := by
  revert h
  cases s <;> cases e <;> decide

theorem run_cons_elim (s : SessionState) (e : SessionEvent) (evs : List SessionEvent)
    (ss : List SessionState) (h : run s (e :: evs) = some ss) :
    ∃ t l, step s e = some t ∧ run t evs = some l ∧ ss = s :: l := by
  simp only [run] at h
  obtain ⟨t, hst, hmap⟩ := Option.bind_eq_some.mp h
  obtain ⟨l, hr, hcons⟩ := Option.map_eq_some'.mp hmap
  exact ⟨t, l, hst, hr, hcons.symm⟩

theorem run_head (s : SessionState) (evs : List SessionEvent) (ss : List SessionState)
    (h : run s evs = some ss) : ∃ t, ss = s :: t := by
  match evs with
  | [] =>
    simp [run] at h
    exact ⟨[], h.symm⟩
  | e :: evs =>
    obtain ⟨t, l, _, _, hss⟩ := run_cons_elim s e evs ss h
    exact ⟨l, hss⟩

theorem connecting_no_self_loop (e : SessionEvent) :
    step SessionState.connecting e ≠ some SessionState.connecting := by
  cases e <;> decide

theorem run_connected_after_connecting_gen (evs : List SessionEvent) :
    ∀ (s : SessionState) (ss pre post : List SessionState),
      run s evs = some ss → ss = pre ++ (SessionState.connected :: post) →
      SessionState.connecting ∈ pre ∨ s = SessionState.connected ∨ s = SessionState.degraded := by
  induction evs with
  | nil =>
    intro s ss pre post h hsplit
    simp [run] at h
    subst h
    cases pre with
    | nil =>
      simp at hsplit
      right; left; exact hsplit.1
    | cons p pre => simp at hsplit
  | cons e evs ih =>
    intro s ss pre post h hsplit
    obtain ⟨t, l, hst, hr, hss⟩ := run_cons_elim s e evs ss h
    subst hss
    cases pre with
    | nil =>
      simp at hsplit
      right; left; exact hsplit.1
    | cons p pre =>
      simp at hsplit
      obtain ⟨hsp, hl⟩ := hsplit
      subst hsp
      rcases ih t l pre post hr hl with hmem | ht | ht
      · left; exact List.mem_cons_of_mem _ hmem
      · rw [ht] at hst
        rcases step_into_connected s e hst with hs | hs
        · left; rw [hs]; exact List.mem_cons_self _ _
        · right; right; exact hs
      · rw [ht] at hst
        right; left; exact step_into_degraded s e hst

theorem run_chain (evs : List SessionEvent) :
    ∀ (s : SessionState) (ss : List SessionState), run s evs = some ss →
      ∀ (pre : List SessionState) (a b : SessionState) (post : List SessionState),
        ss = pre ++ (a :: b :: post) → ∃ e, step a e = some b := by
  induction evs with
  | nil =>
    intro s ss h pre a b post hsplit
    simp [run] at h
    subst h
    cases pre with
    | nil => simp at hsplit
    | cons p pre => simp at hsplit
  | cons e evs ih =>
    intro s ss h pre a b post hsplit
    obtain ⟨t, l, hst, hr, hss⟩ := run_cons_elim s e evs ss h
    subst hss
    cases pre with
    | nil =>
      simp at hsplit
      obtain ⟨hsa, hl⟩ := hsplit
      obtain ⟨tl, htl⟩ := run_head t evs l hr
      rw [htl] at hl
      have hb : b = t := by
        have h2 := hl.symm
        simp at h2
        exact h2.1
      subst hsa
      rw [hb]
      exact ⟨e, hst⟩
    | cons p pre =>
      simp at hsplit
      exact ih t l hr pre a b post hsplit.2

theorem run_disconnected_between_connecting (evs : List SessionEvent) (s : SessionState)
    (ss pre mid post : List SessionState) (h : run s evs = some ss)
    (hsplit : ss = pre ++ (SessionState.connecting :: (mid ++ (SessionState.connecting :: post)))) :
    SessionState.disconnected ∈ mid := by
  rcases List.eq_nil_or_concat mid with rfl | ⟨mid2, lastm, rfl⟩
  · obtain ⟨e, he⟩ := run_chain evs s ss h pre .connecting .connecting post (by simpa using hsplit)
    exact absurd he (connecting_no_self_loop e)
  · have hre : ss = (pre ++ (SessionState.connecting :: mid2)) ++
        (lastm :: SessionState.connecting :: post) := by
      rw [hsplit]; simp
    obtain ⟨e, he⟩ := run_chain evs s ss h _ lastm .connecting post hre
    have hlast : lastm = SessionState.disconnected := step_into_connecting lastm e he
    rw [hlast]
    simp

/-- C9: for every sequence of connect/disconnect events processed by a
ChatBridgeSession (modelled from spec §4.3), a run from Disconnected never
enters Connected without having passed through Connecting earlier in the
trace, and never reaches a second Connecting without a Disconnected strictly
between the two Connecting occurrences. -/
theorem claim_C9_state_machine_order (evs : List SessionEvent) (ss : List SessionState)
    (h : run SessionState.disconnected evs = some ss) :
    (∀ pre post, ss = pre ++ (SessionState.connected :: post) →
      SessionState.connecting ∈ pre) ∧
    (∀ pre mid post,
      ss = pre ++ (SessionState.connecting :: (mid ++ (SessionState.connecting :: post))) →
      SessionState.disconnected ∈ mid) := by
  constructor
  · intro pre post hsplit
    rcases run_connected_after_connecting_gen evs _ ss pre post h hsplit with hm | hd | hd
    · exact hm
    · exact absurd hd (by decide)
    · exact absurd hd (by decide)
  · intro pre mid post hsplit
    exact run_disconnected_between_connecting evs _ ss pre mid post h hsplit

/-- Witness for C9: the concrete run start, handshake, connection loss, backoff
retry produces the trace Disconnected, Connecting, Connected, Disconnected,
Connecting; the first Connected is preceded by a Connecting, and a
Disconnected separates the two Connecting occurrences. -/
theorem claim_C9_witness :
    run SessionState.disconnected
        [SessionEvent.startOrBackoff, SessionEvent.handshakeSucceeded,
         SessionEvent.connectionLost, SessionEvent.startOrBackoff] =
      some [SessionState.disconnected, SessionState.connecting, SessionState.connected,
            SessionState.disconnected, SessionState.connecting] ∧
    SessionState.connecting ∈ [SessionState.disconnected, SessionState.connecting] ∧
    SessionState.disconnected ∈ [SessionState.connected, SessionState.disconnected] := by
  have hrun : run SessionState.disconnected
      [SessionEvent.startOrBackoff, SessionEvent.handshakeSucceeded,
       SessionEvent.connectionLost, SessionEvent.startOrBackoff] =
      some [SessionState.disconnected, SessionState.connecting, SessionState.connected,
            SessionState.disconnected, SessionState.connecting] := by decide
  have h := claim_C9_state_machine_order _ _ hrun
  exact ⟨hrun,
    h.1 [SessionState.disconnected, SessionState.connecting]
      [SessionState.disconnected, SessionState.connecting] rfl,
    h.2 [SessionState.disconnected] [SessionState.connected, SessionState.disconnected] []
      rfl⟩

/-- C1 (code defect): on a fully valid configuration the body of build_intents
assembles the discord.Intents object with exactly the recognized flags at
their resolved values, but build_intents itself — having no return statement —
returns None, so LiveChatBot construction passes intents = None to
super().__init__: the resolved intent set is NOT what the session is
constructed with. Evaluated here at the failing input of an empty override
mapping (a bot configuration holding only an auth token, so the DEFAULT_INTENTS
table itself is used as the override mapping). -/
theorem claim_C1_intents_result_dropped :
    build_intents_body DEFAULT_INTENTS =
      .ok (intent_log DEFAULT_INTENTS,
        { auto_moderation := false,
          auto_moderation_configuration := false,
          auto_moderation_execution := false,
          bans := false,
          dm_messages := false,
          dm_reactions := false,
          dm_typing := false,
          emojis_and_stickers := false,
          guild_messages := true,
          guild_reactions := false,
          guild_scheduled_events := false,
          guild_typing := false,
          guilds := true,
          integrations := false,
          invites := false,
          members := true,
          message_content := true,
          presences := false,
          voice_states := false,
          webhooks := true }) ∧
    build_intents (some DEFAULT_INTENTS) = .ok (intent_log DEFAULT_INTENTS, none) ∧
    LiveChatBot.init (some { auth := some "token" }) =
      .ok { name := "live_chat", display_name := "Live Chat", intents := none } := by
  refine ⟨?_, ?_, ?_⟩ <;> rfl

/-- C2: for every override mapping and every recognized flag name, get_intent
resolves the override value when the name is present and the documented
default otherwise, and the default is true exactly for guild_messages, guilds,
members, message_content and webhooks. -/
theorem claim_C2_intent_resolution (cfg : Overrides) (name : String)
    (h : name ∈ recognized_flags) :
    get_intent (some cfg) (some name) = .ok (name, intent_value cfg name) ∧
    (default_intent name = true ↔
      name ∈ ["guild_messages", "guilds", "members", "message_content", "webhooks"]) := by
  simp only [recognized_flags, DEFAULT_INTENTS, List.map] at h
  fin_cases h <;> exact ⟨rfl, by decide⟩

/-- Witness for C2: the flag members is recognized; with an empty override
mapping it resolves to its default true, one of the five true defaults. -/
theorem claim_C2_witness :
    "members" ∈ recognized_flags ∧
    (get_intent (some ([] : Overrides)) (some "members") =
        .ok ("members", intent_value [] "members") ∧
      (default_intent "members" = true ↔
        "members" ∈ ["guild_messages", "guilds", "members", "message_content", "webhooks"])) :=
  ⟨by decide, claim_C2_intent_resolution [] "members" (by decide)⟩

/-- C3: LiveChatBot construction fails (raises, so no instance is produced and
super().__init__ is never reached) exactly when the configuration object is
absent or its auth field is absent or the empty string. -/
theorem claim_C3_auth_required (c : Option BotConfig) :
    is_error (LiveChatBot.init c) = true ↔
      (c = none ∨ ∃ cfg, c = some cfg ∧ (cfg.auth = none ∨ cfg.auth = some "")) := by
  match c with
  | none => simp [LiveChatBot.init, is_error]
  | some cfg =>
    match hau : cfg.auth with
    | none => simp [LiveChatBot.init, is_error, hau]
    | some a =>
      by_cases hae : a = ""
      · subst hae
        simp [LiveChatBot.init, is_error, hau]
      · rw [LiveChatBot.init_ok cfg a hau hae]
        simp [is_error, hau, hae]

/-- Witness for C3: a configuration without an auth key fails, and one with a
non-empty token does not. -/
theorem claim_C3_witness :
    is_error (LiveChatBot.init (some { auth := none })) = true ∧
    is_error (LiveChatBot.init (some { auth := some "token" })) = false := by
  constructor
  · exact (claim_C3_auth_required (some { auth := none })).mpr
      (Or.inr ⟨{ auth := none }, rfl, Or.inl rfl⟩)
  · by_contra hc
    have hbe : is_error (LiveChatBot.init (some { auth := some "token" })) = true := by
      revert hc
      cases is_error (LiveChatBot.init (some ({ auth := some "token" } : BotConfig))) <;> simp
    have := (claim_C3_auth_required (some { auth := some "token" })).mp hbe
    simp at this

/-- C4: with a non-empty auth token, construction succeeds; name defaults to
live_chat and display_name to Live Chat when absent, and the configured values
are used when present (Option.getD encodes both cases). -/
theorem claim_C4_silent_name_defaults (cfg : BotConfig) (a : String)
    (ha : cfg.auth = some a) (hne : a ≠ "") :
    LiveChatBot.init (some cfg) =
      .ok { name := cfg.name.getD "live_chat",
            display_name := cfg.display_name.getD "Live Chat",
            intents := none } :=
  LiveChatBot.init_ok cfg a ha hne

/-- Witness for C4: with name and display_name absent the defaults are used;
with both present the configured values are used. -/
theorem claim_C4_witness :
    LiveChatBot.init (some { auth := some "tok" }) =
      .ok { name := "live_chat", display_name := "Live Chat", intents := none } ∧
    LiveChatBot.init (some { auth := some "tok", name := some "mybot",
                             display_name := some "My Bot" }) =
      .ok { name := "mybot", display_name := "My Bot", intents := none } :=
  ⟨claim_C4_silent_name_defaults { auth := some "tok" } "tok" rfl (by decide),
   claim_C4_silent_name_defaults
     { auth := some "tok", name := some "mybot", display_name := some "My Bot" }
     "tok" rfl (by decide)⟩

/-- C5 counterexample: with the override mapping holding the single
unrecognized name frobnicate, intent resolution neither fails nor emits any
diagnostic mentioning that name — the name is accepted silently, refuting the
claim that one of the two policies (strict failure, or log-and-ignore) is in
force. -/
theorem claim_C5_counterexample :
    ¬ (is_error (build_intents (some [("frobnicate", true)])) = true ∨
       "frobnicate" ∈ (intent_log [("frobnicate", true)]).map Prod.fst) := by
  decide

theorem lookup_unrecognized_skip (m n : String) (b : Bool) (cfg : Overrides)
    (hmn : m ≠ n) : List.lookup m ((n, b) :: cfg) = List.lookup m cfg := by
  have hb : (m == n) = false := beq_eq_false_iff_ne.mpr hmn
  simp [List.lookup, hb]

/-- C5 amended: an unrecognized name in the overrides is ignored silently —
resolution succeeds, its result is unchanged by the unrecognized entry, the
emitted diagnostics name exactly the twenty recognized flags (so none mentions
the unrecognized name), and no flag outside the recognized set is created. -/
theorem claim_C5_unrecognized_silently_ignored (n : String) (b : Bool) (cfg : Overrides)
    (h : n ∉ recognized_flags) :
    build_intents (some ((n, b) :: cfg)) = build_intents (some cfg) ∧
    build_intents (some cfg) = .ok (intent_log cfg, none) ∧
    (intent_log cfg).map Prod.fst = recognized_flags := by
  have hval : ∀ m, m ∈ recognized_flags → intent_value ((n, b) :: cfg) m = intent_value cfg m := by
    intro m hm
    have hmn : m ≠ n := fun he => h (he ▸ hm)
    unfold intent_value
    rw [lookup_unrecognized_skip m n b cfg hmn]
  have hlog : intent_log ((n, b) :: cfg) = intent_log cfg := by
    unfold intent_log
    exact List.map_congr_left (fun m hm => by rw [hval m hm])
  refine ⟨?_, build_intents_eq cfg, ?_⟩
  · rw [build_intents_eq, build_intents_eq, hlog]
  · unfold intent_log
    rw [List.map_map]
    exact List.map_id _

/-- Witness for C5 amended: the unrecognized name frobnicate prepended to an
empty override mapping changes nothing, resolution succeeds, and the
diagnostics name exactly the recognized flags. -/
theorem claim_C5_witness :
    build_intents (some [("frobnicate", true)]) = build_intents (some []) ∧
    build_intents (some []) = .ok (intent_log [], none) ∧
    (intent_log []).map Prod.fst = recognized_flags :=
  claim_C5_unrecognized_silently_ignored "frobnicate" true [] (by decide)

/-- The configuration for the C6 counterexample: a bots array holding two
invalid entries — a null entry, then an entry missing auth — whose individual
failures carry different messages. -/
def c6_config : ManagerConfig := { bots := some [none, some { auth := none }] }

/-- C6 counterexample: with two invalid bot entries, the load fails with only
the first entry's single error; the second entry's failure (which would raise
the missing-token message, as the last conjunct shows) is not reported, so the
error does not list every invalid entry. -/
theorem claim_C6_counterexample :
    DiscordBotManager.init c6_config = .error (.valueError "configuration is null.") ∧
    reported_errors (DiscordBotManager.init c6_config) =
      [.valueError "configuration is null."] ∧
    PyError.valueError "No API authentication token was provided in the bot configuration." ∉
      reported_errors (DiscordBotManager.init c6_config) ∧
    LiveChatBot.init (some { auth := none }) =
      .error (.valueError
        "No API authentication token was provided in the bot configuration.") := by
  refine ⟨rfl, rfl, ?_, rfl⟩
  decide

/-- C6 amended: when the bots array holds any invalid entry, the load fails
with exactly the error of the first invalid entry; entries after it are never
inspected and their failures are not reported. -/
theorem claim_C6_first_failure_only (json_data : ManagerConfig)
    (bots_pre : List (Option BotConfig)) (b : Option BotConfig)
    (rest : List (Option BotConfig)) (err : PyError)
    (hbots : json_data.bots = some (bots_pre ++ b :: rest))
    (hok : ∀ x ∈ bots_pre, is_error (LiveChatBot.init x) = false)
    (hb : LiveChatBot.init b = .error err) :
    DiscordBotManager.init json_data = .error err ∧
    reported_errors (DiscordBotManager.init json_data) = [err] := by
  have hl := load_bots_first_error bots_pre b rest err hok hb
  have hmain : DiscordBotManager.init json_data = .error err := by
    unfold DiscordBotManager.init
    rw [hbots]
    simp only [Option.getD_some]
    rw [hl]
    rfl
  exact ⟨hmain, by rw [hmain]; rfl⟩

/-- Witness for C6 amended: the two-invalid-entry configuration fails with the
first entry's error alone. -/
theorem claim_C6_witness :
    DiscordBotManager.init c6_config = .error (.valueError "configuration is null.") ∧
    reported_errors (DiscordBotManager.init c6_config) =
      [.valueError "configuration is null."] :=
  claim_C6_first_failure_only c6_config [] none [some { auth := none }]
    (.valueError "configuration is null.") rfl (by intro x hx; simp at hx) rfl

/-- The bot entry of the C7 counterexample: a valid configuration named x. -/
def c7_bot : BotConfig := { auth := some "token", name := some "x" }

/-- The configuration of the C7 counterexample: two bot entries sharing the
name x. -/
def c7_config : ManagerConfig := { bots := some [some c7_bot, some c7_bot] }

/-- C7 counterexample: loading a configuration whose two bot entries share the
name x succeeds — no configuration error is raised — and the registry ends up
holding both duplicate names, refuting the claim that duplicate names are
rejected at load time. -/
theorem claim_C7_counterexample :
    manager_bot_names (DiscordBotManager.init c7_config) = some ["x", "x"] := rfl

/-- C7 amended: the load performs no duplicate-name check: any two valid bot
entries sharing a name are both accepted into the registry, in order. -/
theorem claim_C7_duplicate_names_accepted (c1 c2 : BotConfig) (a1 a2 n : String)
    (h1 : c1.auth = some a1) (hne1 : a1 ≠ "") (h2 : c2.auth = some a2) (hne2 : a2 ≠ "")
    (hn1 : c1.name = some n) (hn2 : c2.name = some n) :
    manager_bot_names (DiscordBotManager.init { bots := some [some c1, some c2] }) =
      some [n, n] := by
  have hb1 := LiveChatBot.init_ok c1 a1 h1 hne1
  have hb2 := LiveChatBot.init_ok c2 a2 h2 hne2
  have hload : load_bots [some c1, some c2] =
      .ok [{ name := c1.name.getD "live_chat",
             display_name := c1.display_name.getD "Live Chat", intents := none },
           { name := c2.name.getD "live_chat",
             display_name := c2.display_name.getD "Live Chat", intents := none }] := by
    simp [load_bots, hb1, hb2]
    rfl
  unfold DiscordBotManager.init
  simp only [Option.getD_some]
  rw [hload]
  simp [manager_bot_names, hn1, hn2]

/-- Witness for C7 amended: two copies of the valid entry named x load into a
registry with the duplicate name twice. -/
theorem claim_C7_witness :
    manager_bot_names (DiscordBotManager.init { bots := some [some c7_bot, some c7_bot] }) =
      some ["x", "x"] :=
  claim_C7_duplicate_names_accepted c7_bot c7_bot "token" "token" "x"
    rfl (by decide) rfl (by decide) rfl rfl

/-- C8: the program entry takes at most one meaningful argument — the result
depends only on the first argument, and with no argument the configuration
directory defaults to the real path of the current working directory; it reads
configuration.json inside that directory, and whenever that file is missing,
unreadable or malformed JSON the entry fails with a raised error, so no
manager is constructed. -/
theorem claim_C8_entry_failure (fs : String → FileState) (cwd : String)
    (arguments : List String) :
    (config_directory_path cwd [] = cwd) ∧
    (∀ a rest, program_entry fs cwd (a :: rest) = program_entry fs cwd [a]) ∧
    ((fs (configuration_file_path cwd arguments) = .missing ∨
      fs (configuration_file_path cwd arguments) = .unreadable ∨
      fs (configuration_file_path cwd arguments) = .malformed) →
      is_error (program_entry fs cwd arguments) = true) := by
  refine ⟨rfl, fun a rest => rfl, fun h => ?_⟩
  rcases h with h | h | h <;>
    simp [program_entry, DiscordBotManager.init_from_path, h, is_error]

/-- A file system on which every path is missing. -/
def fs_missing : String → FileState := fun _ => FileState.missing

/-- Witness for C8: with no argument and configuration.json missing, the entry
fails and constructs no manager. -/
theorem claim_C8_witness :
    is_error (program_entry fs_missing "/srv/bots" []) = true :=
  (claim_C8_entry_failure fs_missing "/srv/bots" []).2.2 (Or.inl rfl)

/-- C10: a valid auth token is checked and then discarded: the constructed
instance is identical for any two non-empty tokens, and all the state it
retains is the name, the display_name and the constant intents = none handed
to super().__init__ — no token is stored or passed on. -/
theorem claim_C10_auth_discarded (cfg : BotConfig) (a1 a2 : String)
    (h1 : a1 ≠ "") (h2 : a2 ≠ "") :
    LiveChatBot.init (some { cfg with auth := some a1 }) =
      LiveChatBot.init (some { cfg with auth := some a2 }) ∧
    (∀ b, LiveChatBot.init (some { cfg with auth := some a1 }) = .ok b →
      b.intents = none ∧ b.name = cfg.name.getD "live_chat" ∧
      b.display_name = cfg.display_name.getD "Live Chat") := by
  have e1 := LiveChatBot.init_ok { cfg with auth := some a1 } a1 rfl h1
  have e2 := LiveChatBot.init_ok { cfg with auth := some a2 } a2 rfl h2
  constructor
  · rw [e1, e2]
  · intro b hb
    rw [e1] at hb
    have hbe : b = _ := (Except.ok.inj hb).symm
    subst hbe
    exact ⟨rfl, rfl, rfl⟩

/-- Witness for C10: swapping the token t1 for t2 leaves the constructed
instance unchanged, and the instance retains only name, display_name and the
constant none intents. -/
theorem claim_C10_witness :
    LiveChatBot.init (some { auth := some "t1", name := some "x" }) =
      LiveChatBot.init (some { auth := some "t2", name := some "x" }) ∧
    LiveChatBot.init (some { auth := some "t1", name := some "x" }) =
      .ok { name := "x", display_name := "Live Chat", intents := none } ∧
    ({ name := "x", display_name := "Live Chat", intents := none } : LiveChatBot).intents =
      none := by
  have h := claim_C10_auth_discarded { name := some "x" } "t1" "t2" (by decide) (by decide)
  exact ⟨h.1, rfl, (h.2 { name := "x", display_name := "Live Chat", intents := none } rfl).1⟩
